import Mathlib

/-!
Verification of the SwiftDateParser comparison repository.

The repository ships a comparison harness (`test_comparison.py`,
`docs/compare_results.py`, `analyze_final_results.py`) that exercises a
date-parsing engine.  The harness functions are embedded directly from the
Python source; the parsing engine itself (the `dateutil` parser the harness
calls) is not part of the repository's source tree, so it is modelled from
the specification (tokenizer, lexical classifier, field resolver, two-digit
year windower, fuzzy extractor, validator, default filler).
-/

namespace SwiftDateParser

/-- Structured calendar timestamp: the result record of a successful parse
(`PartialDateTime` after default filling), with fractional seconds stored as
microseconds and an optional UTC offset in minutes. -/
structure DateTime where
  year : Nat
  month : Nat
  day : Nat
  hour : Nat
  minute : Nat
  second : Nat
  microsecond : Nat
  tzOffset : Option Int
deriving DecidableEq, Repr

/-- Modelled from the spec: `ParseConfig` — {dayFirst, yearFirst, fuzzy,
ignoreTimezone, pivotYear, defaultDateTime}; immutable per parse call. -/
structure ParseConfig where
  dayFirst : Bool
  yearFirst : Bool
  fuzzy : Bool
  ignoreTimezone : Bool
  pivotYear : Nat
  strict : Bool
  defaultDateTime : DateTime
deriving Repr

/-- Base configuration matching the harness defaults: strict, not fuzzy,
month-day-year locale, pivot 50 for two-digit years, a fixed default
baseline date. -/
def baseConfig : ParseConfig :=
  { dayFirst := false, yearFirst := false, fuzzy := false,
    ignoreTimezone := false, pivotYear := 50, strict := true,
    defaultDateTime := ⟨2024, 1, 1, 0, 0, 0, 0, none⟩ }

/-- The configuration the harness call builds: the three keyword flags of
`parse_with_dateutil` over the defaults. -/
def mkConfig (fuzzy dayfirst yearfirst : Bool) : ParseConfig :=
  { baseConfig with fuzzy := fuzzy, dayFirst := dayfirst, yearFirst := yearfirst }

/-- Modelled from the spec: the discriminated error kinds of the engine
(§7 Error Handling Design). -/
inductive ParseError where
  | emptyInput
  | unrecognizedToken (t : String)
  | ambiguousField
  | invalidCalendarDate
  | invalidTimeOfDay
  | yearZeroRejected
  | incompleteRelativeExpression
deriving DecidableEq, Repr

/-- Human-readable message for an error kind. -/
def errMsg : ParseError → String
  | .emptyInput => "String does not contain a date: empty input"
  | .unrecognizedToken t => "Unrecognized token: " ++ t
  | .ambiguousField => "Ambiguous field assignment"
  | .invalidCalendarDate => "Invalid calendar date"
  | .invalidTimeOfDay => "Invalid time of day"
  | .yearZeroRejected => "Year zero is not permitted"
  | .incompleteRelativeExpression => "Incomplete relative expression"

/-- Modelled from the spec: leap-year test — divisible by 4 and (not
divisible by 100 or divisible by 400). -/
def isLeapYear (y : Nat) : Bool :=
  y % 4 == 0 && (y % 100 != 0 || y % 400 == 0)

/-- Days in a month of the proleptic Gregorian calendar. -/
def daysInMonth (y m : Nat) : Nat :=
  if m == 2 then (if isLeapYear y then 29 else 28)
  else if m == 4 || m == 6 || m == 9 || m == 11 then 30
  else 31

/-- Modelled from the spec: the Two-Digit Year Windower (§4.4) — if the
two-digit year is below the pivot it maps to the 2000s, otherwise to the
1900s. -/
def window (twoDigitYear pivot : Nat) : Nat :=
  if twoDigitYear < pivot then 2000 + twoDigitYear else 1900 + twoDigitYear

/-- Modelled from the spec: the Validator (§4.7) — strict mode rejects a day
exceeding the month's length (including non-leap Feb 29), out-of-range time
fields, and year 0; lenient mode auto-rolls only the 24:00 special case. -/
def validate (cfg : ParseConfig) (dt : DateTime) : Except ParseError DateTime :=
  if dt.month < 1 || dt.month > 12 then .error .invalidCalendarDate
  else if dt.day < 1 || dt.day > daysInMonth dt.year dt.month then .error .invalidCalendarDate
  else if dt.hour == 24 && dt.minute == 0 && dt.second == 0 && dt.microsecond == 0 then
    (if cfg.strict then .error .invalidTimeOfDay
     else if dt.day == daysInMonth dt.year dt.month then
       (if dt.month == 12 then .ok { dt with year := dt.year + 1, month := 1, day := 1, hour := 0 }
        else .ok { dt with month := dt.month + 1, day := 1, hour := 0 })
     else .ok { dt with day := dt.day + 1, hour := 0 })
  else if dt.hour > 23 || dt.minute > 59 || dt.second > 59 then .error .invalidTimeOfDay
  else if dt.year == 0 then .error .yearZeroRejected
  else .ok dt

/-! ## Token Stream Builder (modelled from spec §4.1) -/

/-- Lexical token kinds. -/
inductive TokKind where
  | numeric
  | alpha
  | separator
  | whitespace
deriving DecidableEq, Repr

/-- A lexical token: kind plus source text. -/
structure Token where
  kind : TokKind
  text : String
deriving DecidableEq, Repr

/-- Classify one character as a single-character token. -/
def charTok (c : Char) : Token :=
  if c.isDigit then ⟨.numeric, String.singleton c⟩
  else if c.isAlpha then ⟨.alpha, String.singleton c⟩
  else if c.isWhitespace then ⟨.whitespace, String.singleton c⟩
  else ⟨.separator, String.singleton c⟩

/-- Merge adjacent numeric tokens and adjacent alpha tokens (maximal munch);
separators and whitespace stay single characters. -/
def mergeToks : List Token → List Token
  | [] => []
  | t :: ts =>
    match mergeToks ts with
    | [] => [t]
    | u :: us =>
      if t.kind == u.kind && (t.kind == .numeric || t.kind == .alpha) then
        ⟨t.kind, t.text ++ u.text⟩ :: us
      else
        t :: u :: us

/-- Modelled from the spec: the Token Stream Builder (§4.1) — maximal-munch
grouping of consecutive digits and consecutive letters; every other single
character is its own separator/whitespace token; empty input yields the
empty sequence. -/
def tokenize (s : String) : List Token :=
  mergeToks (s.data.map charTok)

/-- Convert a digit run to its numeric value. -/
def digitsToNat (cs : List Char) : Nat :=
  cs.foldl (fun a c => a * 10 + (c.toNat - 48)) 0

/-- Lowercase a string character-wise. -/
def lowerStr (w : String) : String :=
  String.mk (w.data.map Char.toLower)

/-- Character-list prefix test. -/
def isPrefixList : List Char → List Char → Bool
  | [], _ => true
  | _ :: _, [] => false
  | a :: as, b :: bs => a == b && isPrefixList as bs

/-! ## Lexical Classifier (modelled from spec §4.2) -/

/-- Semantically classified resolver items: whitespace is dropped, the
date-time separator letter `T` becomes a separator item, and alpha tokens
carry the tag the classifier assigned (or remain plain words). -/
inductive Item where
  | num (val : Nat) (len : Nat)
  | sep (c : Char)
  | monthName (m : Nat)
  | wkday (n : Nat)
  | merid (pm : Bool)
  | eraTok (bc : Bool)
  | relkw (w : String)
  | word (w : String)
deriving DecidableEq, Repr

/-- Locale table: English month names, in month order. -/
def monthNames : List (String × Nat) :=
  [("january", 1), ("february", 2), ("march", 3), ("april", 4), ("may", 5),
   ("june", 6), ("july", 7), ("august", 8), ("september", 9), ("october", 10),
   ("november", 11), ("december", 12)]

/-- Locale table: English weekday names, Monday = 0. -/
def weekdayNames : List (String × Nat) :=
  [("monday", 0), ("tuesday", 1), ("wednesday", 2), ("thursday", 3),
   ("friday", 4), ("saturday", 5), ("sunday", 6)]

/-- Locale table: relative-date keywords recognized by the classifier. -/
def relKeywords : List String :=
  ["today", "tomorrow", "yesterday", "ago", "next", "last"]

/-- Longest-prefix lookup in a locale table: the lowercased token must be at
least three letters and a prefix of the table entry. -/
def lookupName (table : List (String × Nat)) (lw : String) : Option Nat :=
  if lw.data.length < 3 then none
  else ((table.filter (fun p => isPrefixList lw.data p.1.data)).head?).map (fun p => p.2)

/-- Modelled from the spec: the Lexical Classifier (§4.2) — case-insensitive
matching against locale tables by longest-prefix match for abbreviations;
unmatched alpha tokens remain untagged words. -/
def classifyWord (w : String) : Item :=
  let lw := lowerStr w
  if lw == "t" then .sep 'T'
  else
    match lookupName monthNames lw with
    | some m => .monthName m
    | none =>
      match lookupName weekdayNames lw with
      | some n => .wkday n
      | none =>
        if lw == "am" then .merid false
        else if lw == "pm" then .merid true
        else if lw == "ad" || lw == "ce" then .eraTok false
        else if lw == "bc" || lw == "bce" then .eraTok true
        else if relKeywords.contains lw then .relkw w
        else .word w

/-- Convert one lexical token to a resolver item (whitespace is dropped). -/
def toItem (t : Token) : Option Item :=
  match t.kind with
  | .whitespace => none
  | .separator => some (.sep (t.text.toList.headD ' '))
  | .numeric => some (.num (digitsToNat t.text.data) t.text.data.length)
  | .alpha => some (classifyWord t.text)

/-- Classified item sequence of a token stream. -/
def toItems (ts : List Token) : List Item :=
  ts.filterMap toItem

/-! ## Field Resolver (modelled from spec §4.3) -/

/-- Accumulating resolver state: an optional month fixed by a Month-tagged
token, the unassigned date numerics in source order (value and digit count),
an optional time-of-day group (hour, minute, optional second, optional
fraction with its digit count), and an optional meridiem flag. -/
structure RState where
  monthTag : Option Nat
  dateNums : List (Nat × Nat)
  time : Option (Nat × Nat × Option Nat × Option (Nat × Nat))
  merid : Option Bool
deriving DecidableEq, Repr

/-- Initial resolver state. -/
def initRState : RState := ⟨none, [], none, none⟩

/-- Modelled from the spec: the left-to-right scan of the Field Resolver —
a numeric followed by `:` begins a time-of-day group with optional seconds
and optional `.`/`,` fractional seconds (§4.3 item 4); Month-tagged tokens
fix the month (item 2); weekday and era tokens are recognized and consumed;
untagged words and relative keywords are unresolvable in strict mode
(§4.3 item 8); remaining numerics accumulate for date-field assignment. -/
def scanItems : List Item → RState → Except ParseError RState
  | [], st => .ok st
  | .num h _ :: .sep ':' :: .num mi _ :: .sep ':' :: .num s _ :: .sep '.' :: .num f fl :: rest, st =>
    if st.time.isSome then .error .ambiguousField
    else scanItems rest { st with time := some (h, mi, some s, some (f, fl)) }
  | .num h _ :: .sep ':' :: .num mi _ :: .sep ':' :: .num s _ :: .sep ',' :: .num f fl :: rest, st =>
    if st.time.isSome then .error .ambiguousField
    else scanItems rest { st with time := some (h, mi, some s, some (f, fl)) }
  | .num h _ :: .sep ':' :: .num mi _ :: .sep ':' :: .num s _ :: rest, st =>
    if st.time.isSome then .error .ambiguousField
    else scanItems rest { st with time := some (h, mi, some s, none) }
  | .num h _ :: .sep ':' :: .num mi _ :: rest, st =>
    if st.time.isSome then .error .ambiguousField
    else scanItems rest { st with time := some (h, mi, none, none) }
  | .monthName m :: rest, st =>
    if st.monthTag.isSome then .error .ambiguousField
    else scanItems rest { st with monthTag := some m }
  | .wkday _ :: rest, st => scanItems rest st
  | .eraTok _ :: rest, st => scanItems rest st
  | .merid pm :: rest, st =>
    if st.merid.isSome then .error .ambiguousField
    else scanItems rest { st with merid := some pm }
  | .relkw w :: _, _ => .error (.unrecognizedToken w)
  | .word w :: _, _ => .error (.unrecognizedToken w)
  | .num v l :: rest, st =>
    scanItems rest { st with dateNums := st.dateNums ++ [(v, l)] }
  | .sep _ :: rest, st => scanItems rest st

/-- Window a numeric into a year: two digits or fewer go through the
Two-Digit Year Windower, longer runs are taken literally. -/
def yearOfNum (cfg : ParseConfig) (v l : Nat) : Nat :=
  if l ≤ 2 then window v cfg.pivotYear else v

/-- Modelled from the spec: magnitude classification of §4.3 item 2 — with
the month fixed, a numeric of length 4 or value above 31 is the year, a
value above 12 is the day, the rest stay ambiguous. -/
def classifyNums : List (Nat × Nat) → Option Nat → Option Nat → List (Nat × Nat) →
    Except ParseError (Option Nat × Option Nat × List (Nat × Nat))
  | [], y, d, amb => .ok (y, d, amb)
  | (v, l) :: rest, y, d, amb =>
    if l == 4 || v > 31 then
      match y with
      | none => classifyNums rest (some v) d amb
      | some _ => .error .ambiguousField
    else if v > 12 then
      match d with
      | none => classifyNums rest y (some v) amb
      | some _ => .error .ambiguousField
    else classifyNums rest y d (amb ++ [(v, l)])

/-- Modelled from the spec: tie-break of §4.3 item 2 for the ambiguous
numerics left after magnitude classification, using the yearFirst flag when
both the day slot and the year slot are open. -/
def resolveAmbigNums (cfg : ParseConfig) (y d : Option Nat) :
    List (Nat × Nat) → Except ParseError (Option Nat × Option Nat)
  | [] => .ok (y, d)
  | [(v, l)] =>
    match d with
    | none => .ok (y, some v)
    | some _ =>
      match y with
      | none => .ok (some (yearOfNum cfg v l), d)
      | some _ => .error .ambiguousField
  | [(v1, l1), (v2, l2)] =>
    match y, d with
    | none, none =>
      if cfg.yearFirst then .ok (some (yearOfNum cfg v1 l1), some v2)
      else .ok (some (yearOfNum cfg v2 l2), some v1)
    | _, _ => .error .ambiguousField
  | _ => .error .ambiguousField

/-- Modelled from the spec: date-field assignment (§4.3 items 2 and 3, and
the bare-numeric rule) — a fixed Month token routes the remaining numerics
by magnitude; three bare numerics pick YMD when the first group has four
digits or yearFirst is set, DMY under dayFirst, MDY otherwise; a single
bare numeric is a year (windowed when it has at most two digits). -/
def assignDate (cfg : ParseConfig) (st : RState) :
    Except ParseError (Option Nat × Option Nat × Option Nat) :=
  match st.monthTag with
  | some m =>
    match classifyNums st.dateNums none none [] with
    | .error e => .error e
    | .ok (y, d, amb) =>
      match resolveAmbigNums cfg y d amb with
      | .error e => .error e
      | .ok (y2, d2) => .ok (y2, some m, d2)
  | none =>
    match st.dateNums with
    | [] =>
      if st.time.isSome then .ok (none, none, none)
      else .error .emptyInput
    | [(v, l)] =>
      if l ≤ 2 then .ok (some (window v cfg.pivotYear), none, none)
      else if l == 4 then .ok (some v, none, none)
      else .error .ambiguousField
    | [(a, _), (b, _)] =>
      if cfg.dayFirst || a > 12 then .ok (none, some b, some a)
      else .ok (none, some a, some b)
    | [(a, al), (b, _), (c, cl)] =>
      if al == 4 then .ok (some a, some b, some c)
      else if cfg.yearFirst then .ok (some (yearOfNum cfg a al), some b, some c)
      else if cfg.dayFirst then .ok (some (yearOfNum cfg c cl), some b, some a)
      else .ok (some (yearOfNum cfg c cl), some a, some b)
    | _ => .error .ambiguousField

/-- Modelled from the spec: meridiem conversion (§4.3 item 5) — PM adds 12
except for 12 PM itself; 12 AM is midnight. -/
def applyMeridiem (pm : Bool) (h : Nat) : Nat :=
  if pm then (if h == 12 then 12 else h + 12)
  else (if h == 12 then 0 else h)

/-- Scale a fractional-second digit run to microseconds. -/
def fracToMicro (f l : Nat) : Nat :=
  if l ≤ 6 then f * 10 ^ (6 - l) else f / 10 ^ (l - 6)

/-- Modelled from the spec: Default Filler and Result Assembler — fields
absent from the partial result are copied field-by-field from the
configured default baseline, and the time-of-day group (with meridiem
applied) populates the clock fields. -/
def assembleResult (cfg : ParseConfig) (ymd : Option Nat × Option Nat × Option Nat)
    (st : RState) : Except ParseError DateTime :=
  let dflt := cfg.defaultDateTime
  match st.time with
  | none =>
    .ok { year := ymd.1.getD dflt.year, month := ymd.2.1.getD dflt.month,
          day := ymd.2.2.getD dflt.day, hour := dflt.hour, minute := dflt.minute,
          second := dflt.second, microsecond := dflt.microsecond, tzOffset := none }
  | some (h, mi, s, f) =>
    match st.merid with
    | some pm =>
      if h < 1 || h > 12 then .error .invalidTimeOfDay
      else
        .ok { year := ymd.1.getD dflt.year, month := ymd.2.1.getD dflt.month,
              day := ymd.2.2.getD dflt.day, hour := applyMeridiem pm h, minute := mi,
              second := s.getD dflt.second,
              microsecond := ((f.map (fun p => fracToMicro p.1 p.2)).getD dflt.microsecond),
              tzOffset := none }
    | none =>
      .ok { year := ymd.1.getD dflt.year, month := ymd.2.1.getD dflt.month,
            day := ymd.2.2.getD dflt.day, hour := h, minute := mi,
            second := s.getD dflt.second,
            microsecond := ((f.map (fun p => fracToMicro p.1 p.2)).getD dflt.microsecond),
            tzOffset := none }

/-- Resolve a classified item sequence to a validated timestamp: scan,
assign date fields, assemble with defaults, validate. -/
def resolveItems (cfg : ParseConfig) (items : List Item) : Except ParseError DateTime :=
  match scanItems items initRState with
  | .error e => .error e
  | .ok st =>
    match assignDate cfg st with
    | .error e => .error e
    | .ok ymd =>
      match assembleResult cfg ymd st with
      | .error e => .error e
      | .ok dt => validate cfg dt

/-! ## Fuzzy Extractor (modelled from spec §4.6) -/

/-- An item is droppable in fuzzy mode when it carries no semantic tag from
the set Month/Weekday/Meridiem/Era/OrdinalSuffix: plain words and relative
keywords. -/
def isDroppable : Item → Bool
  | .word _ => true
  | .relkw _ => true
  | _ => false

/-- Source text of a droppable item. -/
def droppedText : Item → Option String
  | .word w => some w
  | .relkw w => some w
  | _ => none

/-- Modelled from the spec: the parse entry point over the engine —
tokenize, classify, resolve; empty input fails with EmptyInput; in fuzzy
mode a failed strict resolution is retried with the untagged alpha tokens
dropped, reporting the dropped text in source order (§4.6). -/
def duParse (cfg : ParseConfig) (s : String) : Except ParseError (DateTime × List String) :=
  let toks := tokenize s
  if toks.isEmpty then .error .emptyInput
  else
    let items := toItems toks
    match resolveItems cfg items with
    | .ok dt => .ok (dt, [])
    | .error e =>
      if cfg.fuzzy then
        let dropped := items.filterMap droppedText
        if dropped.isEmpty then .error e
        else
          match resolveItems cfg (items.filter (fun i => !isDroppable i)) with
          | .ok dt => .ok (dt, dropped)
          | .error e2 => .error e2
      else .error e

/-! ## Result formatting -/

/-- Zero-pad a numeral to two digits. -/
def pad2 (n : Nat) : String :=
  if n < 10 then "0" ++ toString n else toString n

/-- Zero-pad a numeral to four digits. -/
def pad4 (n : Nat) : String :=
  if n < 10 then "000" ++ toString n
  else if n < 100 then "00" ++ toString n
  else if n < 1000 then "0" ++ toString n
  else toString n

/-- Zero-pad a numeral to six digits. -/
def pad6 (n : Nat) : String :=
  if n < 10 then "00000" ++ toString n
  else if n < 100 then "0000" ++ toString n
  else if n < 1000 then "000" ++ toString n
  else if n < 10000 then "00" ++ toString n
  else if n < 100000 then "0" ++ toString n
  else toString n

/-- ISO-8601 extended rendering of a timestamp, omitting the fractional
part when it is zero, as Python's isoformat does. -/
def isoformat (dt : DateTime) : String :=
  pad4 dt.year ++ "-" ++ pad2 dt.month ++ "-" ++ pad2 dt.day ++ "T" ++
    pad2 dt.hour ++ ":" ++ pad2 dt.minute ++ ":" ++ pad2 dt.second ++
    (if dt.microsecond == 0 then "" else "." ++ pad6 dt.microsecond)

/-! ## Harness embedding: src/test_comparison.py -/

/-- Result record of `parse_with_dateutil` in src/test_comparison.py:
{success, date, time_ms, error}. -/
structure DUResult where
  success : Bool
  date : Option String
  time_ms : Nat
  error : Option String
deriving DecidableEq, Repr

/-- Embedding of `parse_with_dateutil` (src/test_comparison.py, lines
106-125), result conversion: success becomes a record holding the ISO
timestamp and the elapsed wall-clock time, and any parser failure becomes
a record with success false and the error message.  The two wall-clock
reads taken around the parse are passed explicitly as `clock`
(start, end). -/
def wrapResult (clock : Nat × Nat) (r : Except ParseError (DateTime × List String)) :
    DUResult :=
  match r with
  | .ok (dt, _) =>
    { success := true, date := some (isoformat dt),
      time_ms := clock.2 - clock.1, error := none }
  | .error e =>
    { success := false, date := none, time_ms := 0, error := some (errMsg e) }

/-- The parse call of the harness: the try block's success path and the
except clause of `parse_with_dateutil`, applied to the engine's result. -/
def parse_with_dateutil (clock : Nat × Nat) (date_string : String)
    (fuzzy dayfirst yearfirst : Bool) : DUResult :=
  wrapResult clock (duParse (mkConfig fuzzy dayfirst yearfirst) date_string)

/-! ## Harness embedding: src/docs/compare_results.py -/

/-- Read exactly `k` digits from the front of a character list. -/
def readNDigits (k : Nat) (cs : List Char) : Option (Nat × List Char) :=
  let pre := cs.take k
  if pre.length == k && pre.all Char.isDigit then some (digitsToNat pre, cs.drop k)
  else none

/-- Consume one expected character. -/
def expectChar (c : Char) : List Char → Option (List Char)
  | [] => none
  | x :: xs => if x == c then some xs else none

/-- Read a trailing UTC offset: `Z`, `+HH:MM`, or `-HH:MM`; the empty rest
means no offset. -/
def readOffset : List Char → Option (Option Int × List Char)
  | [] => some (none, [])
  | 'Z' :: rest => some (some 0, rest)
  | '+' :: rest =>
    match readNDigits 2 rest with
    | none => none
    | some (h, rest2) =>
      match expectChar ':' rest2 with
      | none => none
      | some rest3 =>
        match readNDigits 2 rest3 with
        | none => none
        | some (m, rest4) => some (some (Int.ofNat (h * 60 + m)), rest4)
  | '-' :: rest =>
    match readNDigits 2 rest with
    | none => none
    | some (h, rest2) =>
      match expectChar ':' rest2 with
      | none => none
      | some rest3 =>
        match readNDigits 2 rest3 with
        | none => none
        | some (m, rest4) => some (some (-(Int.ofNat (h * 60 + m))), rest4)
  | _ => none

/-- Finish an ISO parse: bounds-check the clock fields, read the optional
offset, and require the input to be exhausted. -/
def finishISO (y mo d h mi s micro : Nat) (cs : List Char) : Option DateTime :=
  if h > 23 || mi > 59 || s > 59 then none
  else
    match readOffset cs with
    | some (off, []) => some ⟨y, mo, d, h, mi, s, micro, off⟩
    | _ => none

/-- Parse the time-of-day part after the hour digits: optional `:MM`,
optional `:SS`, optional `.`/`,` fractional seconds, optional offset. -/
def isoTimeAfterHour (y mo d h : Nat) : List Char → Option DateTime
  | ':' :: cs2 =>
    match readNDigits 2 cs2 with
    | none => none
    | some (mi, cs3) =>
      match cs3 with
      | ':' :: cs4 =>
        match readNDigits 2 cs4 with
        | none => none
        | some (s, cs5) =>
          match cs5 with
          | '.' :: cs6 =>
            let digs := cs6.takeWhile Char.isDigit
            if digs.isEmpty then none
            else finishISO y mo d h mi s (fracToMicro (digitsToNat digs) digs.length)
                   (cs6.dropWhile Char.isDigit)
          | ',' :: cs6 =>
            let digs := cs6.takeWhile Char.isDigit
            if digs.isEmpty then none
            else finishISO y mo d h mi s (fracToMicro (digitsToNat digs) digs.length)
                   (cs6.dropWhile Char.isDigit)
          | _ => finishISO y mo d h mi s 0 cs5
      | _ => finishISO y mo d h mi 0 0 cs3
  | cs => finishISO y mo d h 0 0 0 cs

/-- Modelled from the spec: the ISO-8601 extended contract
(`YYYY-MM-DDTHH:MM:SS[.ffffff][±HH:MM|Z]`) that `dateutil.parser.isoparse`
decides for the comparison script: calendar-checked date part, optional
`T`-separated time with optional fraction and offset. -/
def isoparse (s : String) : Option DateTime :=
  match readNDigits 4 s.toList with
  | none => none
  | some (y, cs1) =>
    match expectChar '-' cs1 with
    | none => none
    | some cs2 =>
      match readNDigits 2 cs2 with
      | none => none
      | some (mo, cs3) =>
        match expectChar '-' cs3 with
        | none => none
        | some cs4 =>
          match readNDigits 2 cs4 with
          | none => none
          | some (d, cs5) =>
            if mo < 1 || mo > 12 || d < 1 || d > daysInMonth y mo then none
            else
              match cs5 with
              | [] => some ⟨y, mo, d, 0, 0, 0, 0, none⟩
              | 'T' :: cs6 =>
                match readNDigits 2 cs6 with
                | none => none
                | some (h, cs7) => isoTimeAfterHour y mo d h cs7
              | _ => none

/-- Calendar-date projection of a timestamp, as Python's `.date()`. -/
def dateOf (dt : DateTime) : Nat × Nat × Nat := (dt.year, dt.month, dt.day)

/-- The `strftime` format used by `normalize_dates`:
`%Y-%m-%d %H:%M:%S`. -/
def fmtNorm (dt : DateTime) : String :=
  pad4 dt.year ++ "-" ++ pad2 dt.month ++ "-" ++ pad2 dt.day ++ " " ++
    pad2 dt.hour ++ ":" ++ pad2 dt.minute ++ ":" ++ pad2 dt.second

/-- Embedding of `normalize_dates` (src/docs/compare_results.py, lines
29-39): a falsy string maps to None; otherwise the string is ISO-parsed and
reformatted, falling back to the original string when parsing fails. -/
def normalize_dates (date_str : String) : Option String :=
  if date_str = "" then none
  else
    match isoparse date_str with
    | some dt => some (fmtNorm dt)
    | none => some date_str

/-- Python falsiness of an optional string: None or the empty string. -/
def falsyOpt : Option String → Bool
  | none => true
  | some t => t == ""

/-- Embedding of `compare_dates` (src/docs/compare_results.py, lines
41-65): when either argument is falsy the result is plain equality;
otherwise the normalized forms are compared, and on mismatch both strings
are ISO-parsed and their calendar dates compared ignoring time-of-day. -/
def compare_dates (python_date swift_date : Option String) : Bool :=
  if falsyOpt python_date || falsyOpt swift_date then
    decide (python_date = swift_date)
  else
    let a := python_date.getD ""
    let b := swift_date.getD ""
    if normalize_dates a = normalize_dates b then true
    else
      match isoparse a, isoparse b with
      | some da, some db => decide (dateOf da = dateOf db)
      | _, _ => false

/-! ## Harness embedding: src/analyze_final_results.py -/

/-- The five counters of the analysis loop. -/
structure Counters where
  swift_passed : Nat
  python_passed : Nat
  both_passed : Nat
  swift_only : Nat
  python_only : Nat
deriving DecidableEq, Repr

/-- All counters start at zero. -/
def initCounters : Counters := ⟨0, 0, 0, 0, 0⟩

/-- Embedding of one iteration of the comparison loop
(src/analyze_final_results.py, lines 21-41): the pair holds the Swift and
Python default-mode success flags, and the four independent conditionals
update the counters. -/
def stepCounters (c : Counters) (p : Bool × Bool) : Counters :=
  let c1 := if p.1 then { c with swift_passed := c.swift_passed + 1 } else c
  let c2 := if p.2 then { c1 with python_passed := c1.python_passed + 1 } else c1
  let c3 := if p.1 && p.2 then { c2 with both_passed := c2.both_passed + 1 } else c2
  let c4 := if p.1 && !p.2 then { c3 with swift_only := c3.swift_only + 1 } else c3
  if p.2 && !p.1 then { c4 with python_only := c4.python_only + 1 } else c4

/-- The whole comparison loop over the zipped success flags. -/
def analyzeCounters (results : List (Bool × Bool)) : Counters :=
  results.foldl stepCounters initCounters

/-- The invariant claimed of the loop: passed = both + exclusive, on each
side. -/
def countersInv (c : Counters) : Prop :=
  c.swift_passed = c.both_passed + c.swift_only ∧
  c.python_passed = c.both_passed + c.python_only

/-- Acceptance of a timestamp by the Validator under a configuration. -/
def acceptsDate (cfg : ParseConfig) (dt : DateTime) : Bool :=
  match validate cfg dt with
  | .ok _ => true
  | .error _ => false

/-! ## Theorems -/

/-- Shape of the wrapped result record, for an arbitrary engine result:
either the success payload or the failure payload, never a mixture. -/
theorem wrapResult_shape (clock : Nat × Nat)
    (r : Except ParseError (DateTime × List String)) :
    ((wrapResult clock r).success = true ∧ (wrapResult clock r).date ≠ none ∧
      (wrapResult clock r).error = none) ∨
    ((wrapResult clock r).success = false ∧ (wrapResult clock r).date = none ∧
      ∃ msg, (wrapResult clock r).error = some msg) := by
  rcases r with e | ⟨dt, sk⟩
  · exact Or.inr ⟨rfl, rfl, errMsg e, rfl⟩
  · exact Or.inl ⟨rfl, by simp [wrapResult], rfl⟩

/-- The success, date, and error fields of the wrapped record do not
depend on the clock argument. -/
theorem wrapResult_payload_clock_free (c1 c2 : Nat × Nat)
    (r : Except ParseError (DateTime × List String)) :
    (wrapResult c1 r).success = (wrapResult c2 r).success ∧
    (wrapResult c1 r).date = (wrapResult c2 r).date ∧
    (wrapResult c1 r).error = (wrapResult c2 r).error := by
  rcases r with e | ⟨dt, sk⟩
  · exact ⟨rfl, rfl, rfl⟩
  · exact ⟨rfl, rfl, rfl⟩

/-- C1: For every input string and every combination of the
fuzzy/dayfirst/yearfirst flags, the parse entry point (parse_with_dateutil)
returns a result record as a value rather than raising: every failure of
the underlying parser is captured with success = false and an error
message, and the call never aborts uncontrolled (the embedding is a total
function). -/
theorem parse_with_dateutil_total_capture :
    ∀ (clock : Nat × Nat) (date_string : String) (fuzzy dayfirst yearfirst : Bool),
      (parse_with_dateutil clock date_string fuzzy dayfirst yearfirst).success = true ∨
      ((parse_with_dateutil clock date_string fuzzy dayfirst yearfirst).success = false ∧
       ∃ msg, (parse_with_dateutil clock date_string fuzzy dayfirst yearfirst).error = some msg) := by
  intro clock s f d y
  unfold parse_with_dateutil
  exact (wrapResult_shape clock _).elim (fun h => Or.inl h.1)
    (fun h => Or.inr ⟨h.1, h.2.2⟩)

/-- C3: For the empty string input, parsing always fails with the
EmptyInput error kind regardless of configuration: parse_with_dateutil ""
returns success = false for every combination of the fuzzy, dayfirst, and
yearfirst flags. -/
theorem empty_input_always_fails :
    ∀ (clock : Nat × Nat) (fuzzy dayfirst yearfirst : Bool),
      duParse (mkConfig fuzzy dayfirst yearfirst) "" = .error .emptyInput ∧
      (parse_with_dateutil clock "" fuzzy dayfirst yearfirst).success = false ∧
      (parse_with_dateutil clock "" fuzzy dayfirst yearfirst).error =
        some (errMsg .emptyInput) := by
  intro clock f d y
  exact ⟨rfl, rfl, rfl⟩

/-- C5: For the input "10/09/03": parsing with dayFirst = false and
yearFirst = false assigns month = 10 and day = 9, and parsing the same
input with dayFirst = true assigns day = 10 and month = 9. -/
theorem ambiguous_numeric_date_flags :
    (duParse baseConfig "10/09/03").map (fun p => (p.1.month, p.1.day)) = .ok (10, 9) ∧
    (duParse { baseConfig with dayFirst := true } "10/09/03").map
      (fun p => (p.1.month, p.1.day)) = .ok (9, 10) := by
  exact ⟨rfl, rfl⟩

/-- C7: With fuzzy mode enabled, parsing
"Today is January 1, 2047 at 8:21:00AM" succeeds with timestamp
2047-01-01T08:21:00, and the returned skipped-token list is exactly
["Today", "is", "at"] in that order. -/
theorem fuzzy_sentence_extraction :
    duParse { baseConfig with fuzzy := true } "Today is January 1, 2047 at 8:21:00AM" =
      .ok (⟨2047, 1, 1, 8, 21, 0, 0, none⟩, ["Today", "is", "at"]) ∧
    isoformat ⟨2047, 1, 1, 8, 21, 0, 0, none⟩ = "2047-01-01T08:21:00" := by
  exact ⟨rfl, rfl⟩

/-- C8: Every result record returned by parse_with_dateutil has mutually
exclusive payloads: success = true implies the date field holds a non-null
timestamp string and error is None, and success = false implies the date
field is None and error is a non-null message. -/
theorem parse_result_payloads_exclusive :
    ∀ (clock : Nat × Nat) (date_string : String) (fuzzy dayfirst yearfirst : Bool),
      ((parse_with_dateutil clock date_string fuzzy dayfirst yearfirst).success = true ∧
       (parse_with_dateutil clock date_string fuzzy dayfirst yearfirst).date ≠ none ∧
       (parse_with_dateutil clock date_string fuzzy dayfirst yearfirst).error = none) ∨
      ((parse_with_dateutil clock date_string fuzzy dayfirst yearfirst).success = false ∧
       (parse_with_dateutil clock date_string fuzzy dayfirst yearfirst).date = none ∧
       (parse_with_dateutil clock date_string fuzzy dayfirst yearfirst).error ≠ none) := by
  intro clock s f d y
  unfold parse_with_dateutil
  exact (wrapResult_shape clock _).elim
    (fun h => Or.inl h)
    (fun h => Or.inr ⟨h.1, h.2.1, by obtain ⟨m, hm⟩ := h.2.2; simp [hm]⟩)

/-- C4, counterexample: the result record of parse_with_dateutil is not
independent of the wall clock — the two clock reads taken around the parse
determine the time_ms field, so two calls on the same input and flags at
different instants produce different records. -/
theorem parse_with_dateutil_clock_dependent :
    parse_with_dateutil (0, 5) "2003-09-25" false false false ≠
      parse_with_dateutil (0, 7) "2003-09-25" false false false ∧
    (parse_with_dateutil (0, 5) "2003-09-25" false false false).time_ms = 5 ∧
    (parse_with_dateutil (0, 7) "2003-09-25" false false false).time_ms = 7 := by
  exact ⟨by decide, rfl, rfl⟩

/-- C4, amended: the parse payload is deterministic — for every input
string and flag combination, two calls agree on the success, date, and
error fields whatever the wall-clock reads were; only the time_ms field
depends on the clock. -/
theorem parse_payload_deterministic :
    ∀ (c1 c2 : Nat × Nat) (date_string : String) (fuzzy dayfirst yearfirst : Bool),
      (parse_with_dateutil c1 date_string fuzzy dayfirst yearfirst).success =
        (parse_with_dateutil c2 date_string fuzzy dayfirst yearfirst).success ∧
      (parse_with_dateutil c1 date_string fuzzy dayfirst yearfirst).date =
        (parse_with_dateutil c2 date_string fuzzy dayfirst yearfirst).date ∧
      (parse_with_dateutil c1 date_string fuzzy dayfirst yearfirst).error =
        (parse_with_dateutil c2 date_string fuzzy dayfirst yearfirst).error := by
  intro c1 c2 s f d y
  unfold parse_with_dateutil
  exact wrapResult_payload_clock_free c1 c2 _

/-- The Boolean leap-year test agrees with its arithmetic
characterization. -/
theorem isLeapYear_iff (y : Nat) :
    isLeapYear y = true ↔ (y % 4 = 0 ∧ (y % 100 ≠ 0 ∨ y % 400 = 0)) := by
  simp [isLeapYear]

/-- In strict mode the Validator accepts February 29 of a positive year
exactly when the year passes the leap-year test. -/
theorem acceptsDate_feb29 (y : Nat) (hy : 0 < y) :
    acceptsDate baseConfig ⟨y, 2, 29, 0, 0, 0, 0, none⟩ = true ↔ isLeapYear y = true := by
  have hz : (y == 0) = false := by simp [Nat.pos_iff_ne_zero.mp hy]
  cases hl : isLeapYear y <;>
    simp [acceptsDate, validate, daysInMonth, hl, hz, baseConfig]

/-- C6: In strict mode, parsing "2003-02-29" fails with
InvalidCalendarDate and parsing "2004-02-29" succeeds; in general,
February 29 of year y is accepted exactly when y is divisible by 4 and
(not divisible by 100 or divisible by 400). -/
theorem feb29_strict_validation :
    duParse baseConfig "2003-02-29" = .error .invalidCalendarDate ∧
    duParse baseConfig "2004-02-29" = .ok (⟨2004, 2, 29, 0, 0, 0, 0, none⟩, []) ∧
    ∀ y : Nat, 0 < y →
      (acceptsDate baseConfig ⟨y, 2, 29, 0, 0, 0, 0, none⟩ = true ↔
        (y % 4 = 0 ∧ (y % 100 ≠ 0 ∨ y % 400 = 0))) :=
  ⟨rfl, rfl, fun y hy => (acceptsDate_feb29 y hy).trans (isLeapYear_iff y)⟩

/-- Witness for C6: the general leap statement instantiated at the leap
year 2004. -/
theorem feb29_strict_validation_witness :
    0 < 2004 ∧
    (acceptsDate baseConfig ⟨2004, 2, 29, 0, 0, 0, 0, none⟩ = true ↔
      (2004 % 4 = 0 ∧ (2004 % 100 ≠ 0 ∨ 2004 % 400 = 0))) :=
  ⟨by decide, feb29_strict_validation.2.2 2004 (by decide)⟩

/-- One loop iteration preserves the counter invariant. -/
theorem stepCounters_inv (c : Counters) (sw py : Bool) (h : countersInv c) :
    countersInv (stepCounters c (sw, py)) := by
  obtain ⟨h1, h2⟩ := h
  cases sw <;> cases py <;> simp [stepCounters, countersInv] <;> omega

/-- The fold over any pair list preserves the counter invariant. -/
theorem foldl_counters_inv (l : List (Bool × Bool)) :
    ∀ c : Counters, countersInv c → countersInv (l.foldl stepCounters c) := by
  induction l with
  | nil => exact fun c h => h
  | cons p t ih =>
    intro c h
    obtain ⟨sw, py⟩ := p
    exact ih _ (stepCounters_inv c sw py h)

/-- C9: For every pair of Swift and Python result lists of equal length,
after the comparison loop in analyze_final_results the counters satisfy
swift_passed = both_passed + swift_only and
python_passed = both_passed + python_only, and each loop iteration
preserves both equalities. -/
theorem analyze_counters_invariant :
    (∀ (c : Counters) (sw py : Bool), countersInv c → countersInv (stepCounters c (sw, py))) ∧
    (∀ results : List (Bool × Bool), countersInv (analyzeCounters results)) :=
  ⟨fun c sw py h => stepCounters_inv c sw py h,
   fun results => foldl_counters_inv results initCounters ⟨rfl, rfl⟩⟩

/-- Witness for C9: the step lemma applied to the zero counters and one
concrete iteration, and the loop applied to a concrete pair list. -/
theorem analyze_counters_invariant_witness :
    countersInv (stepCounters initCounters (true, false)) ∧
    countersInv (analyzeCounters [(true, true), (true, false), (false, true)]) :=
  ⟨analyze_counters_invariant.1 initCounters true false ⟨rfl, rfl⟩,
   analyze_counters_invariant.2 [(true, true), (true, false), (false, true)]⟩

/-- C10: compare_dates is symmetric: for every pair of arguments a and b
(timestamp strings or None), compare_dates a b returns the same boolean as
compare_dates b a. -/
theorem compare_dates_symmetric :
    ∀ a b : Option String, compare_dates a b = compare_dates b a := by
  intro a b
  unfold compare_dates
  cases hfa : falsyOpt a <;> cases hfb : falsyOpt b <;>
    simp only [hfa, hfb, Bool.false_or, Bool.or_false, Bool.true_or, Bool.or_true]
  case false.false =>
    by_cases hn : normalize_dates (a.getD "") = normalize_dates (b.getD "")
    · rw [if_pos hn, if_pos hn.symm]
      simp
    · have hn2 : ¬ normalize_dates (b.getD "") = normalize_dates (a.getD "") :=
        fun h => hn h.symm
      simp only [if_neg hn, if_neg hn2]
      cases isoparse (a.getD "") <;> cases isoparse (b.getD "") <;>
        simp [decide_eq_decide, eq_comm]
  all_goals simp [decide_eq_decide, eq_comm]

/-- C2, counterexample: two valid ISO timestamps that denote different
instants (they differ in the time-of-day fields) nevertheless compare
True, because compare_dates falls back to comparing the calendar date
while ignoring the time. -/
theorem compare_dates_not_bit_exact :
    isoparse "2003-09-25T10:49:41" = some ⟨2003, 9, 25, 10, 49, 41, 0, none⟩ ∧
    isoparse "2003-09-25T11:00:00" = some ⟨2003, 9, 25, 11, 0, 0, 0, none⟩ ∧
    (⟨2003, 9, 25, 10, 49, 41, 0, none⟩ : DateTime) ≠ ⟨2003, 9, 25, 11, 0, 0, 0, none⟩ ∧
    compare_dates (some "2003-09-25T10:49:41") (some "2003-09-25T11:00:00") = true :=
  ⟨rfl, rfl, by decide, rfl⟩

/-- C2, amended: for two non-empty strings that both ISO-parse,
compare_dates returns True exactly when the normalized second-precision
renderings coincide or the calendar dates (ignoring time-of-day)
coincide. -/
theorem compare_dates_amended :
    ∀ (sa sb : String) (da db : DateTime),
      sa ≠ "" → sb ≠ "" → isoparse sa = some da → isoparse sb = some db →
      (compare_dates (some sa) (some sb) = true ↔
        (fmtNorm da = fmtNorm db ∨ dateOf da = dateOf db)) := by
  intro sa sb da db hsa hsb ha hb
  have hna : normalize_dates sa = some (fmtNorm da) := by
    simp [normalize_dates, hsa, ha]
  have hnb : normalize_dates sb = some (fmtNorm db) := by
    simp [normalize_dates, hsb, hb]
  unfold compare_dates
  have hfa : falsyOpt (some sa) = false := by simp [falsyOpt, hsa]
  have hfb : falsyOpt (some sb) = false := by simp [falsyOpt, hsb]
  simp only [hfa, hfb, Bool.or_self, Option.getD_some, hna, hnb, ha, hb,
    Bool.false_eq_true, if_false, Option.some.injEq]
  by_cases heq : fmtNorm da = fmtNorm db
  · simp [heq]
  · simp [heq]

/-- Witness for C2 amended: the equivalence instantiated at two concrete
parsed timestamps sharing a calendar date. -/
theorem compare_dates_amended_witness :
    compare_dates (some "2003-09-25T10:49:41") (some "2003-09-25T23:59:59") = true ↔
      (fmtNorm ⟨2003, 9, 25, 10, 49, 41, 0, none⟩ = fmtNorm ⟨2003, 9, 25, 23, 59, 59, 0, none⟩ ∨
       dateOf ⟨2003, 9, 25, 10, 49, 41, 0, none⟩ = dateOf ⟨2003, 9, 25, 23, 59, 59, 0, none⟩) :=
  compare_dates_amended "2003-09-25T10:49:41" "2003-09-25T23:59:59"
    ⟨2003, 9, 25, 10, 49, 41, 0, none⟩ ⟨2003, 9, 25, 23, 59, 59, 0, none⟩
    (by decide) (by decide) rfl rfl

end SwiftDateParser
